import Mathlib

/-!
Verification development for the `three-colorpicker` repository: a shoe-model
customizer whose core is (a) a per-part customization state (color, optional
texture reference, UV mapping, selection, interaction flag), (b) a message
handler translating host `postMessage` events into state mutations, (c) a
mesh-reconciliation effect applying the state onto the loaded scene graph
(material clone-on-first-touch, texture/color application, UV mapping,
matte normalization, selection outline), and (d) an image-crop pipeline
(`getCroppedImg`).  The definitions below are a shallow embedding of
`src/app/page.tsx` (the texture-capable variant) and `src/app/index.tsx`
(the color-only variant); floats are modelled as rationals, JS object
identity of materials/textures/overlays as natural-number ids drawn from a
fresh-id counter threaded through each pass.
-/

namespace ThreeColorpicker

/-- The closed part set: `PART_NAMES` from `src/app/page.tsx`. -/
def PART_NAMES : List String :=
  ["logo", "ankleflap", "laceguardarea", "midsole",
   "outsole", "sidepanel", "upper", "laces"]

/-- UV mapping parameters: interface `Mapping { offsetX; offsetY; scale }`. -/
structure Mapping where
  offsetX : ℚ
  offsetY : ℚ
  scale : ℚ
deriving DecidableEq, Repr

/-- Function update on string-keyed maps; models the object-spread updates
`{ ...c, [part]: color }` used by every state setter. -/
def update {α : Type} (f : String → α) (p : String) (v : α) : String → α :=
  fun q => if q = p then v else f q

/-- The React state of the `Page` component that constitutes the
customization state: `colors`, `textures`, `mappings`, `selectedPart`,
`interactive`.  (The crop-modal UI state lives outside this record.) -/
structure PageState where
  colors : String → String
  textures : String → Option String
  mappings : String → Mapping
  selectedPart : Option String
  interactive : Bool

/-- The `useState` initial values: every part white, no texture, identity
mapping, nothing selected, interaction on. -/
def initialPageState : PageState :=
  { colors := fun _ => "#ffffff"
    textures := fun _ => none
    mappings := fun _ => { offsetX := 0, offsetY := 0, scale := 1 }
    selectedPart := none
    interactive := true }

/-- An inbound host message `{ part, color?, mapping?, image? }`. -/
structure ChannelMsg where
  part : String
  color : Option String
  mapping : Option Mapping
  image : Option String

/-- JS truthiness for the optional string fields: `if (color)` is false for
`undefined` and for the empty string. -/
def strTruthy (s : String) : Bool := !s.isEmpty

/-- Source: `if (color) { setColors({...c, [part]: color}); setTextures({...t, [part]: null}) }`:
a color assignment also clears the part's texture reference. -/
def applyColorField (part : String) (color : Option String) (s : PageState) :
    PageState :=
  match color with
  | some c =>
      if strTruthy c then
        { s with colors := update s.colors part c
                 textures := update s.textures part none }
      else s
  | none => s

/-- Source: `if (mapping) { setMappings({...m, [part]: mapping}) }`. -/
def applyMappingField (part : String) (mapping : Option Mapping)
    (s : PageState) : PageState :=
  match mapping with
  | some mp => { s with mappings := update s.mappings part mp }
  | none => s

/-- Source: `if (image) { setTextures({...t, [part]: image}) }`: a texture
assignment leaves the stored color untouched. -/
def applyImageField (part : String) (image : Option String) (s : PageState) :
    PageState :=
  match image with
  | some u =>
      if strTruthy u then
        { s with textures := update s.textures part (some u) }
      else s
  | none => s

/-- The `postMessage` handler of `src/app/page.tsx`: bail out unless
`PART_NAMES.includes(part)`; then apply, in source order, the `color`,
`mapping` and `image` fields of the message. -/
def handleMessage (m : ChannelMsg) (s : PageState) : PageState :=
  if PART_NAMES.contains m.part then
    applyImageField m.part m.image
      (applyMappingField m.part m.mapping
        (applyColorField m.part m.color s))
  else s

/-- The `toggleInteractive` callback: when currently interactive, deselect first; then
flip the flag. -/
def toggleInteractive (s : PageState) : PageState :=
  let s' := if s.interactive then { s with selectedPart := none } else s
  { s' with interactive := !s'.interactive }

/-- The `onPointerDown` route of the `<group>`: the handler is only
installed while `interactive`, and selects the hit node's name when it is a
known part, else deselects. -/
def pointerDown (s : PageState) (hitName : String) : PageState :=
  if s.interactive then
    { s with selectedPart :=
        if PART_NAMES.contains hitName then some hitName else none }
  else s

/-- The Canvas `onPointerMissed` handler: `interactive && setSelectedPart(null)`. -/
def pointerMissed (s : PageState) : PageState :=
  if s.interactive then { s with selectedPart := none } else s

/-!
## Mesh reconciler

The `useEffect` body of the `Model` component walks `PART_NAMES`, resolves
each mesh, and applies the state.  JS object identity (which material / which
texture / which outline object) is modelled by a `Nat` id; every allocation
(`material.clone()`, `new TextureLoader().load(...)`, `new EdgesGeometry`,
`new LineBasicMaterial`) draws the next id from a counter threaded through
the pass.  The per-material loop body is embedded for the single-material
case (the source maps the identical block over `mesh.material` when it is an
array).
-/

/-- A `THREE.Texture` object as configured by the effect.  `loaded` records
whether the asynchronous image fetch started by `TextureLoader.load` has
completed and filled in this object's image data. -/
structure TextureObj where
  handle : Nat
  url : String
  flipY : Bool
  wrapRepeatS : Bool
  wrapRepeatT : Bool
  anisotropy : Nat
  repeatU : ℚ
  repeatV : ℚ
  offsetU : ℚ
  offsetV : ℚ
  loaded : Bool
deriving DecidableEq, Repr

/-- The fields of a `MeshStandardMaterial` that the reconciler touches.
Secondary shading maps are opaque handles. -/
structure Material where
  id : Nat
  hasColor : Bool
  map : Option TextureObj
  normalMap : Option Nat
  roughnessMap : Option Nat
  metalnessMap : Option Nat
  bumpMap : Option Nat
  aoMap : Option Nat
  color : String
  roughness : ℚ
  metalness : ℚ
  needsUpdate : Bool
deriving DecidableEq, Repr

/-- The selection outline (`THREE.LineSegments` of an `EdgesGeometry` and a
`LineBasicMaterial`), stored in `mesh.userData.outline`. -/
structure Overlay where
  geometryId : Nat
  materialId : Nat
  thresholdAngle : ℚ
  renderOrder : Nat
  depthTest : Bool
deriving DecidableEq, Repr

/-- A mesh node of the loaded scene together with the reconciler's
side-table (`userData.cloned`, `userData.outline`). -/
structure MeshNode where
  name : String
  cloned : Bool
  material : Material
  outline : Option Overlay
deriving DecidableEq, Repr

/-- Result of reconciling one node: the updated node, the next fresh id, and
the ids of GPU resources released by `dispose()` during the step. -/
structure NodeResult where
  node : MeshNode
  fresh : Nat
  disposed : List Nat
deriving DecidableEq, Repr

/-- Clone-on-first-touch: `if (!mesh.userData.cloned) { ... m.clone() ... }`.
A clone copies every field but is a fresh object (fresh id). -/
def cloneStep (n : MeshNode) (fresh : Nat) : Material × Nat :=
  if !n.cloned then ({ n.material with id := fresh }, fresh + 1)
  else (n.material, fresh)

/-- Visual-source resolution of the texture-capable variant: `mat.map = null`
first; then, when a texture reference is stored, `loader.load(url)` allocates
a fresh texture object which the effect configures (`flipY = false`, repeat
wrapping on both axes, max anisotropy) and installs with a white tint;
otherwise the flat color is set. -/
def textureStep (s : PageState) (maxAniso : Nat) (name : String)
    (mat : Material) (fresh : Nat) : Material × Nat :=
  let mat1 := { mat with map := none }
  match s.textures name with
  | some url =>
      let tex : TextureObj :=
        { handle := fresh, url := url, flipY := false,
          wrapRepeatS := true, wrapRepeatT := true, anisotropy := maxAniso,
          repeatU := 1, repeatV := 1, offsetU := 0, offsetV := 0,
          loaded := false }
      ({ mat1 with map := some tex, color := "#ffffff" }, fresh + 1)
  | none => ({ mat1 with color := s.colors name }, fresh)

/-- Source: `if (mat.map) { tile = 2 * scale; repeat.set(tile, tile); offset.set(offsetX, offsetY) }`. -/
def mappingStep (s : PageState) (name : String) (mat : Material) : Material :=
  match mat.map with
  | some t =>
      let mp := s.mappings name
      let tile := 2 * mp.scale
      let t' :=
        { t with repeatU := tile, repeatV := tile,
                 offsetU := mp.offsetX, offsetV := mp.offsetY }
      { mat with map := some t' }
  | none => mat

/-- Source: `mat.roughness = 1; mat.metalness = 0; mat.needsUpdate = true`. -/
def matteStep (mat : Material) : Material :=
  { mat with roughness := 1, metalness := 0, needsUpdate := true }

/-- Source: `if (mesh.userData.outline) { remove; geometry.dispose(); material.dispose(); delete }`:
the slot is emptied and both resources are released. -/
def removeOutlineStep (cur : Option Overlay) : Option Overlay × List Nat :=
  match cur with
  | some o => (none, [o.geometryId, o.materialId])
  | none => (none, [])

/-- Source: `if (interactive && name === selectedPart)`: build a fresh
`EdgesGeometry(mesh.geometry, 15)` + `LineBasicMaterial` outline with
`renderOrder = 999` and depth testing off, and store it in the slot. -/
def addOutlineStep (s : PageState) (name : String) (cur : Option Overlay)
    (fresh : Nat) : Option Overlay × Nat :=
  if s.interactive ∧ s.selectedPart = some name then
    (some { geometryId := fresh, materialId := fresh + 1,
            thresholdAngle := 15, renderOrder := 999, depthTest := false },
     fresh + 2)
  else (cur, fresh)

/-- The whole per-part loop body of the texture-capable reconciliation
effect (`src/app/page.tsx`, `Model`'s `useEffect`). -/
def reconcileNode (s : PageState) (maxAniso : Nat) (n : MeshNode)
    (fresh : Nat) : NodeResult :=
  let c := cloneStep n fresh
  let t := textureStep s maxAniso n.name c.1 c.2
  let mat := matteStep (mappingStep s n.name t.1)
  let r := removeOutlineStep n.outline
  let a := addOutlineStep s n.name r.1 t.2
  { node := { name := n.name, cloned := true, material := mat, outline := a.1 }
    fresh := a.2
    disposed := r.2 }

/-- The per-part loop body of the color-only reconciliation effect
(`src/app/index.tsx`, `Model`'s `useEffect`): guarded by `hasColorProp`, it
strips `map`, `normalMap`, `roughnessMap`, `metalnessMap`, `bumpMap` and
`aoMap` (the source nulls each only when currently truthy — same result),
forces matte shading, and sets the flat color; the outline handling is
identical to the texture-capable variant. -/
def reconcileNodeColorOnly (s : PageState) (n : MeshNode) (fresh : Nat) :
    NodeResult :=
  let c := cloneStep n fresh
  let mat :=
    if c.1.hasColor then
      { c.1 with map := none, normalMap := none, roughnessMap := none,
                 metalnessMap := none, bumpMap := none, aoMap := none,
                 roughness := 1, metalness := 0,
                 color := s.colors n.name, needsUpdate := true }
    else c.1
  let r := removeOutlineStep n.outline
  let a := addOutlineStep s n.name r.1 c.2
  { node := { name := n.name, cloned := true, material := mat, outline := a.1 }
    fresh := a.2
    disposed := r.2 }

/-- One part's reconciliation against the scene list: mutate the first node
carrying that name (`nodes[name] || scene.getObjectByName(name)`); skip
silently when the part is absent from the asset. -/
def reconcileList (s : PageState) (maxAniso : Nat) (name : String) :
    List MeshNode → Nat → List MeshNode × Nat × List Nat
  | [], fresh => ([], fresh, [])
  | n :: rest, fresh =>
      if n.name = name then
        let r := reconcileNode s maxAniso n fresh
        (r.node :: rest, r.fresh, r.disposed)
      else
        let r := reconcileList s maxAniso name rest fresh
        (n :: r.1, r.2.1, r.2.2)

/-- A full reconciliation pass: `PART_NAMES.forEach(name => ...)`. -/
def reconcilePass (s : PageState) (maxAniso : Nat) (scene : List MeshNode)
    (fresh : Nat) : List MeshNode × Nat × List Nat :=
  PART_NAMES.foldl
    (fun acc name =>
      let r := reconcileList s maxAniso name acc.1 acc.2.1
      (r.1, r.2.1, acc.2.2 ++ r.2.2))
    (scene, fresh, [])

/-- Completion of the asynchronous image fetch behind
`TextureLoader.load`: the browser fills in the image data of the one texture
object the load was started on.  The mutation is observable through a
material exactly when that object is still the material's `map`. -/
def completeLoadTex (h : Nat) (t : TextureObj) : TextureObj :=
  if t.handle = h then { t with loaded := true } else t

/-- Effect of a load completion on a mesh node: only a texture object still
installed as the material's map is reachable from the node. -/
def completeLoadNode (h : Nat) (n : MeshNode) : MeshNode :=
  match n.material.map with
  | some t =>
      { n with material := { n.material with map := some (completeLoadTex h t) } }
  | none => n

/-!
## Crop-to-texture pipeline

`getCroppedImg` decodes the source image, allocates a canvas sized exactly
to the crop rectangle, draws the cropped region, and serializes the canvas
as a PNG blob.  The browser collaborators (image decoding, `canvas.toBlob`)
are modelled as an environment: decoding yields a bitmap or fails
(`img.onerror` → the promise rejects), and `toBlob` either produces data or
passes `null` (→ rejection with `Error('Canvas is empty')`).
-/

/-- A decoded bitmap (`HTMLImageElement` after `onload`). -/
structure SourceImage where
  width : Nat
  height : Nat
deriving DecidableEq, Repr

/-- The crop rectangle `{ x, y, width, height }` in source pixels. -/
structure PixelCrop where
  x : Nat
  y : Nat
  width : Nat
  height : Nat
deriving DecidableEq, Repr

/-- The ways `getCroppedImg` rejects. -/
inductive CropError where
  | imageLoadError
  | encodingError (msg : String)
deriving DecidableEq, Repr

/-- The serialized output raster: its pixel dimensions are those of the
canvas it was encoded from, its MIME type the one passed to `toBlob`. -/
structure ImageBlob where
  width : Nat
  height : Nat
  mime : String
deriving DecidableEq, Repr

/-- Browser collaborators used by the pipeline. -/
structure BrowserEnv where
  decodeImage : String → Option SourceImage
  canvasToBlobOk : Bool

/-- The function `getCroppedImg(imageSrc, pixelCrop)` from `src/app/page.tsx`: await the
image decode (reject on `onerror`), size the canvas to
`pixelCrop.width × pixelCrop.height`, `drawImage` the region unscaled, and
`canvas.toBlob(..., 'image/png')` (reject when the callback gets `null`). -/
def getCroppedImg (env : BrowserEnv) (imageSrc : String)
    (pixelCrop : PixelCrop) : Except CropError ImageBlob :=
  match env.decodeImage imageSrc with
  | none => .error .imageLoadError
  | some _image =>
      let canvasW := pixelCrop.width
      let canvasH := pixelCrop.height
      if env.canvasToBlobOk then
        .ok { width := canvasW, height := canvasH, mime := "image/png" }
      else
        .error (.encodingError "Canvas is empty")

/-- Model of `URL.createObjectURL(blob)`: an opaque URL naming the blob. -/
def objectURL (b : ImageBlob) : String :=
  "blob:" ++ toString b.width ++ "x" ++ toString b.height

/-- The `applyCrop` callback: only when a source image, a crop rectangle and a selected
part are all present does the cropped blob become the selected part's
texture; a rejection of `getCroppedImg` is caught (`console.error`) and the
customization state is left as it was.  (The crop-modal UI fields the
callback also resets live outside `PageState`.) -/
def applyCrop (env : BrowserEnv) (imageSrc : Option String)
    (croppedAreaPixels : Option PixelCrop) (s : PageState) : PageState :=
  match imageSrc, croppedAreaPixels, s.selectedPart with
  | some src, some cp, some p =>
      match getCroppedImg env src cp with
      | .ok blob => { s with textures := update s.textures p (some (objectURL blob)) }
      | .error _ => s
  | _, _, _ => s

/-!
## Helper lemmas
-/

lemma strTruthy_of_ne_empty {s : String} (h : s ≠ "") : strTruthy s = true := by
  unfold strTruthy
  cases heq : s.isEmpty
  · rfl
  · exact absurd ((String.isEmpty_iff s).mp heq) h

lemma applyColorField_selectedPart (part : String) (c : Option String)
    (s : PageState) : (applyColorField part c s).selectedPart = s.selectedPart := by
  unfold applyColorField
  repeat' split
  all_goals rfl

lemma applyMappingField_selectedPart (part : String) (mp : Option Mapping)
    (s : PageState) : (applyMappingField part mp s).selectedPart = s.selectedPart := by
  unfold applyMappingField
  repeat' split
  all_goals rfl

lemma applyImageField_selectedPart (part : String) (u : Option String)
    (s : PageState) : (applyImageField part u s).selectedPart = s.selectedPart := by
  unfold applyImageField
  repeat' split
  all_goals rfl

lemma handleMessage_selectedPart (m : ChannelMsg) (s : PageState) :
    (handleMessage m s).selectedPart = s.selectedPart := by
  unfold handleMessage
  split
  · rw [applyImageField_selectedPart, applyMappingField_selectedPart,
        applyColorField_selectedPart]
  · rfl

lemma applyImageField_colors (part : String) (u : Option String)
    (s : PageState) : (applyImageField part u s).colors = s.colors := by
  unfold applyImageField
  repeat' split
  all_goals rfl

lemma applyMappingField_colors (part : String) (mp : Option Mapping)
    (s : PageState) : (applyMappingField part mp s).colors = s.colors := by
  unfold applyMappingField
  repeat' split
  all_goals rfl

lemma applyMappingField_textures (part : String) (mp : Option Mapping)
    (s : PageState) : (applyMappingField part mp s).textures = s.textures := by
  unfold applyMappingField
  repeat' split
  all_goals rfl

lemma reconcileNode_material (s : PageState) (a : Nat) (n : MeshNode) (f : Nat) :
    (reconcileNode s a n f).node.material =
      matteStep (mappingStep s n.name
        (textureStep s a n.name (cloneStep n f).1 (cloneStep n f).2).1) := rfl

lemma reconcileNode_outline (s : PageState) (a : Nat) (n : MeshNode) (f : Nat) :
    (reconcileNode s a n f).node.outline =
      (addOutlineStep s n.name (removeOutlineStep n.outline).1
        (textureStep s a n.name (cloneStep n f).1 (cloneStep n f).2).2).1 := rfl

lemma reconcileNode_fresh (s : PageState) (a : Nat) (n : MeshNode) (f : Nat) :
    (reconcileNode s a n f).fresh =
      (addOutlineStep s n.name (removeOutlineStep n.outline).1
        (textureStep s a n.name (cloneStep n f).1 (cloneStep n f).2).2).2 := rfl

lemma reconcileNode_disposed (s : PageState) (a : Nat) (n : MeshNode) (f : Nat) :
    (reconcileNode s a n f).disposed = (removeOutlineStep n.outline).2 := rfl

lemma reconcileNode_name (s : PageState) (a : Nat) (n : MeshNode) (f : Nat) :
    (reconcileNode s a n f).node.name = n.name := rfl

lemma reconcileNode_cloned (s : PageState) (a : Nat) (n : MeshNode) (f : Nat) :
    (reconcileNode s a n f).node.cloned = true := rfl

lemma matteStep_id (m : Material) : (matteStep m).id = m.id := rfl

lemma mappingStep_id (s : PageState) (name : String) (m : Material) :
    (mappingStep s name m).id = m.id := by
  unfold mappingStep
  repeat' split
  all_goals rfl

lemma textureStep_fst_id (s : PageState) (a : Nat) (name : String)
    (m : Material) (f : Nat) : (textureStep s a name m f).1.id = m.id := by
  unfold textureStep
  repeat' split
  all_goals rfl

lemma reconcileNode_material_id (s : PageState) (a : Nat) (n : MeshNode)
    (f : Nat) :
    (reconcileNode s a n f).node.material.id = (cloneStep n f).1.id := by
  rw [reconcileNode_material, matteStep_id, mappingStep_id, textureStep_fst_id]

lemma cloneStep_fst_of_cloned {n : MeshNode} (f : Nat) (h : n.cloned = true) :
    (cloneStep n f).1 = n.material := by
  simp [cloneStep, h]

lemma cloneStep_fst_id_of_not_cloned {n : MeshNode} (f : Nat)
    (h : n.cloned = false) : (cloneStep n f).1.id = f := by
  simp [cloneStep, h]

/-!
## Claim theorems
-/

/-- C1: for every part in the closed part set, a channel color assignment
sets that part's color and clears its texture reference, while a channel
image assignment sets the texture reference and leaves the stored colors
unchanged; hence a color message followed by an image message leaves the
part with the image as its texture and the prior color value still
retained in state. -/
theorem color_message_then_image_message (s : PageState) (p c u : String)
    (hp : PART_NAMES.contains p = true) (hc : c ≠ "") (hu : u ≠ "") :
    (handleMessage { part := p, color := some c, mapping := none, image := none } s).colors p = c ∧
    (handleMessage { part := p, color := some c, mapping := none, image := none } s).textures p = none ∧
    (handleMessage { part := p, color := none, mapping := none, image := some u }
        (handleMessage { part := p, color := some c, mapping := none, image := none } s)).textures p = some u ∧
    (handleMessage { part := p, color := none, mapping := none, image := some u }
        (handleMessage { part := p, color := some c, mapping := none, image := none } s)).colors =
      (handleMessage { part := p, color := some c, mapping := none, image := none } s).colors ∧
    (handleMessage { part := p, color := none, mapping := none, image := some u }
        (handleMessage { part := p, color := some c, mapping := none, image := none } s)).colors p = c := by
  have hc' := strTruthy_of_ne_empty hc
  have hu' := strTruthy_of_ne_empty hu
  have hp' : p ∈ PART_NAMES := by simpa using hp
  simp [handleMessage, applyColorField, applyMappingField, applyImageField,
        hp', hc', hu', update]

/-- Witness for C1 at the spec's own example: `{part:"midsole",
color:"#ff0000"}` then `{part:"midsole", image:<url>}` from the initial
state. -/
theorem color_message_then_image_message_witness :
    (handleMessage { part := "midsole", color := some "#ff0000", mapping := none, image := none } initialPageState).colors "midsole" = "#ff0000" ∧
    (handleMessage { part := "midsole", color := some "#ff0000", mapping := none, image := none } initialPageState).textures "midsole" = none ∧
    (handleMessage { part := "midsole", color := none, mapping := none, image := some "https://tex.example/shoe.png" }
        (handleMessage { part := "midsole", color := some "#ff0000", mapping := none, image := none } initialPageState)).textures "midsole" = some "https://tex.example/shoe.png" ∧
    (handleMessage { part := "midsole", color := none, mapping := none, image := some "https://tex.example/shoe.png" }
        (handleMessage { part := "midsole", color := some "#ff0000", mapping := none, image := none } initialPageState)).colors =
      (handleMessage { part := "midsole", color := some "#ff0000", mapping := none, image := none } initialPageState).colors ∧
    (handleMessage { part := "midsole", color := none, mapping := none, image := some "https://tex.example/shoe.png" }
        (handleMessage { part := "midsole", color := some "#ff0000", mapping := none, image := none } initialPageState)).colors "midsole" = "#ff0000" :=
  color_message_then_image_message initialPageState "midsole" "#ff0000"
    "https://tex.example/shoe.png" (by decide) (by decide) (by decide)

/-- C3: a channel message whose `part` is not in the closed part set leaves
the entire customization state (colors, textures, mappings, selection,
interaction flag) unchanged; the handler is a total function, so no error
is raised. -/
theorem unknown_part_message_ignored (m : ChannelMsg) (s : PageState)
    (h : PART_NAMES.contains m.part = false) :
    handleMessage m s = s := by
  have h' : m.part ∉ PART_NAMES := by simpa using h
  simp [handleMessage, h']

/-- Witness for C3: the spec's example part `"wheel"`, with every field
populated, leaves the initial state untouched. -/
theorem unknown_part_message_ignored_witness :
    handleMessage
      { part := "wheel", color := some "#ff0000",
        mapping := some { offsetX := 1, offsetY := 2, scale := 3 },
        image := some "https://tex.example/shoe.png" }
      initialPageState = initialPageState :=
  unknown_part_message_ignored _ _ (by decide)

/-- C6: toggling interaction off deselects (`SelectedPart := null`) and, in
the non-interactive state, neither a pointer-down hit, a pointer miss, nor
a channel message changes `SelectedPart` (pointer events leave the whole
state unchanged, since the handlers are not installed / are guarded). -/
theorem noninteractive_has_no_selection (s s' : PageState) (hit : String)
    (m : ChannelMsg) (hs : s.interactive = true)
    (hs' : s'.interactive = false) :
    (toggleInteractive s).selectedPart = none ∧
    (toggleInteractive s).interactive = false ∧
    pointerDown s' hit = s' ∧
    pointerMissed s' = s' ∧
    (handleMessage m s').selectedPart = s'.selectedPart := by
  refine ⟨?_, ?_, ?_, ?_, handleMessage_selectedPart m s'⟩ <;>
    simp [toggleInteractive, pointerDown, pointerMissed, hs, hs']

/-- Witness for C6: toggling off from the initial (interactive, part
selected) state, then pointer events and a message against the resulting
non-interactive state. -/
theorem noninteractive_has_no_selection_witness :
    (toggleInteractive { initialPageState with selectedPart := some "upper" }).selectedPart = none ∧
    (toggleInteractive { initialPageState with selectedPart := some "upper" }).interactive = false ∧
    pointerDown { initialPageState with interactive := false } "upper" =
      { initialPageState with interactive := false } ∧
    pointerMissed { initialPageState with interactive := false } =
      { initialPageState with interactive := false } ∧
    (handleMessage { part := "upper", color := some "#00ff00", mapping := none, image := none }
        { initialPageState with interactive := false }).selectedPart =
      ({ initialPageState with interactive := false } : PageState).selectedPart :=
  noninteractive_has_no_selection
    { initialPageState with selectedPart := some "upper" }
    { initialPageState with interactive := false }
    "upper"
    { part := "upper", color := some "#00ff00", mapping := none, image := none }
    rfl rfl

/-- C2: when a part has an active texture, the per-part reconciliation step
installs a texture map for the stored reference whose repeat is
`(2 * scale, 2 * scale)` and whose offset is `(offsetX, offsetY)` of the
stored UV transform. -/
theorem uv_transform_applied (s : PageState) (a : Nat) (n : MeshNode)
    (f : Nat) (u : String) (h : s.textures n.name = some u) :
    ∃ t, (reconcileNode s a n f).node.material.map = some t ∧
      t.url = u ∧
      t.repeatU = 2 * (s.mappings n.name).scale ∧
      t.repeatV = 2 * (s.mappings n.name).scale ∧
      t.offsetU = (s.mappings n.name).offsetX ∧
      t.offsetV = (s.mappings n.name).offsetY := by
  rw [reconcileNode_material]
  unfold textureStep mappingStep matteStep
  simp [h]

/-- A customization state with the spec's example texture and UV transform
`{offsetX: 0.25, offsetY: -0.1, scale: 2}` stored for `midsole`. -/
def sTex : PageState :=
  { initialPageState with
      textures := update initialPageState.textures "midsole"
        (some "https://tex.example/shoe.png")
      mappings := update initialPageState.mappings "midsole"
        { offsetX := 1/4, offsetY := -1/10, scale := 2 } }

/-- A material as loaded from the asset, with baked secondary maps. -/
def matEx : Material :=
  { id := 0, hasColor := true, map := none,
    normalMap := some 7, roughnessMap := some 8, metalnessMap := some 9,
    bumpMap := some 10, aoMap := some 11,
    color := "#c0c0c0", roughness := 1/2, metalness := 1/4,
    needsUpdate := false }

/-- The `midsole` mesh before any reconciliation pass. -/
def nodeMidsole : MeshNode :=
  { name := "midsole", cloned := false, material := matEx, outline := none }

/-- Witness for C2: the example transform yields repeat `(4, 4)` and offset
`(0.25, -0.1)`. -/
theorem uv_transform_applied_witness :
    ∃ t, (reconcileNode sTex 16 nodeMidsole 0).node.material.map = some t ∧
      t.url = "https://tex.example/shoe.png" ∧
      t.repeatU = 4 ∧ t.repeatV = 4 ∧ t.offsetU = 1/4 ∧ t.offsetV = -1/10 := by
  obtain ⟨t, h1, h2, h3, h4, h5, h6⟩ :=
    uv_transform_applied sTex 16 nodeMidsole 0 "https://tex.example/shoe.png" rfl
  have hm : sTex.mappings "midsole" = { offsetX := 1/4, offsetY := -1/10, scale := 2 } := rfl
  refine ⟨t, h1, h2, ?_, ?_, ?_, ?_⟩
  · rw [h3, show nodeMidsole.name = "midsole" from rfl, hm]; norm_num
  · rw [h4, show nodeMidsole.name = "midsole" from rfl, hm]; norm_num
  · rw [h5, show nodeMidsole.name = "midsole" from rfl, hm]
  · rw [h6, show nodeMidsole.name = "midsole" from rfl, hm]

/-- C4: the per-part reconciliation step clones the node's material exactly
once per session: a not-yet-cloned node gets a fresh material object (the
freshly allocated id) and is marked `cloned`; a marked node keeps its
material object; in particular a second pass right after a first one never
reclones. -/
theorem material_clone_once (s s' : PageState) (a a' : Nat) (n : MeshNode)
    (f f' : Nat) :
    (reconcileNode s a n f).node.cloned = true ∧
    (n.cloned = false → (reconcileNode s a n f).node.material.id = f) ∧
    (n.cloned = true → (reconcileNode s a n f).node.material.id = n.material.id) ∧
    (reconcileNode s' a' (reconcileNode s a n f).node f').node.material.id =
      (reconcileNode s a n f).node.material.id := by
  refine ⟨reconcileNode_cloned s a n f, ?_, ?_, ?_⟩
  · intro h
    rw [reconcileNode_material_id, cloneStep_fst_id_of_not_cloned f h]
  · intro h
    rw [reconcileNode_material_id, cloneStep_fst_of_cloned f h]
  · rw [reconcileNode_material_id,
        cloneStep_fst_of_cloned f' (reconcileNode_cloned s a n f)]

/-- Witness for C4: first pass on the fresh `midsole` node clones (id
becomes the allocated 0) and a second pass keeps the material. -/
theorem material_clone_once_witness :
    (reconcileNode sTex 16 nodeMidsole 0).node.cloned = true ∧
    (reconcileNode sTex 16 nodeMidsole 0).node.material.id = 0 ∧
    (reconcileNode sTex 16 (reconcileNode sTex 16 nodeMidsole 0).node 50).node.material.id =
      (reconcileNode sTex 16 nodeMidsole 0).node.material.id := by
  obtain ⟨h1, h2, _h3, h4⟩ := material_clone_once sTex sTex 16 16 nodeMidsole 0 50
  exact ⟨h1, h2 rfl, h4⟩

/-- C5: after a per-part reconciliation step the node carries an overlay
exactly when interaction is enabled and the part is the selected one (the
`userData.outline` slot holds at most one overlay by construction), and the
step disposed precisely the geometry and material of the overlay it found
in the slot, before the new one was created. -/
theorem overlay_zero_or_one (s : PageState) (a : Nat) (n : MeshNode)
    (f : Nat) :
    ((reconcileNode s a n f).node.outline.isSome = true ↔
      (s.interactive = true ∧ s.selectedPart = some n.name)) ∧
    (∀ o, n.outline = some o →
      (reconcileNode s a n f).disposed = [o.geometryId, o.materialId]) ∧
    (n.outline = none → (reconcileNode s a n f).disposed = []) := by
  refine ⟨?_, ?_, ?_⟩
  · rw [reconcileNode_outline]
    unfold addOutlineStep removeOutlineStep
    cases n.outline <;> split <;> simp_all
  · intro o ho
    rw [reconcileNode_disposed]
    simp [removeOutlineStep, ho]
  · intro ho
    rw [reconcileNode_disposed]
    simp [removeOutlineStep, ho]

/-- The overlay attached by an earlier pass. -/
def overlayEx : Overlay :=
  { geometryId := 100, materialId := 101, thresholdAngle := 15,
    renderOrder := 999, depthTest := false }

/-- A selected `upper` mesh still carrying the previous pass's overlay. -/
def nodeUpperSel : MeshNode :=
  { name := "upper", cloned := true, material := matEx,
    outline := some overlayEx }

/-- Witness for C5: with `upper` selected and interaction on, the step
keeps exactly one overlay on the node and disposes the previous overlay's
geometry and material; deselecting instead leaves no overlay. -/
theorem overlay_zero_or_one_witness :
    (reconcileNode { initialPageState with selectedPart := some "upper" } 16 nodeUpperSel 0).node.outline.isSome = true ∧
    (reconcileNode { initialPageState with selectedPart := some "upper" } 16 nodeUpperSel 0).disposed = [100, 101] ∧
    (reconcileNode initialPageState 16 nodeUpperSel 0).node.outline.isSome ≠ true := by
  obtain ⟨h1, h2, _⟩ :=
    overlay_zero_or_one { initialPageState with selectedPart := some "upper" } 16 nodeUpperSel 0
  obtain ⟨h1', _, _⟩ := overlay_zero_or_one initialPageState 16 nodeUpperSel 0
  refine ⟨h1.mpr ⟨rfl, rfl⟩, h2 overlayEx rfl, ?_⟩
  intro hcontra
  exact Option.noConfusion ((h1'.mp hcontra).2)

lemma textureStep_secondary (s : PageState) (a : Nat) (name : String)
    (m : Material) (f : Nat) :
    (textureStep s a name m f).1.normalMap = m.normalMap ∧
    (textureStep s a name m f).1.roughnessMap = m.roughnessMap ∧
    (textureStep s a name m f).1.metalnessMap = m.metalnessMap ∧
    (textureStep s a name m f).1.bumpMap = m.bumpMap ∧
    (textureStep s a name m f).1.aoMap = m.aoMap := by
  unfold textureStep
  repeat' split
  all_goals exact ⟨rfl, rfl, rfl, rfl, rfl⟩

lemma mappingStep_secondary (s : PageState) (name : String) (m : Material) :
    (mappingStep s name m).normalMap = m.normalMap ∧
    (mappingStep s name m).roughnessMap = m.roughnessMap ∧
    (mappingStep s name m).metalnessMap = m.metalnessMap ∧
    (mappingStep s name m).bumpMap = m.bumpMap ∧
    (mappingStep s name m).aoMap = m.aoMap := by
  unfold mappingStep
  repeat' split
  all_goals exact ⟨rfl, rfl, rfl, rfl, rfl⟩

lemma cloneStep_secondary (n : MeshNode) (f : Nat) :
    (cloneStep n f).1.normalMap = n.material.normalMap ∧
    (cloneStep n f).1.roughnessMap = n.material.roughnessMap ∧
    (cloneStep n f).1.metalnessMap = n.material.metalnessMap ∧
    (cloneStep n f).1.bumpMap = n.material.bumpMap ∧
    (cloneStep n f).1.aoMap = n.material.aoMap := by
  unfold cloneStep
  repeat' split
  all_goals exact ⟨rfl, rfl, rfl, rfl, rfl⟩

lemma cloneStep_hasColor (n : MeshNode) (f : Nat) :
    (cloneStep n f).1.hasColor = n.material.hasColor := by
  unfold cloneStep
  repeat' split
  all_goals rfl

/-- C8 counterexample: in the texture-capable reconciler the secondary
shading maps survive a pass — reconciling the fresh `midsole` node (whose
cloned material inherits baked `normalMap`/`aoMap` handles) with an active
texture leaves `normalMap` at its baked value instead of `null`. -/
theorem secondary_maps_not_stripped_counterexample :
    (reconcileNode sTex 16 nodeMidsole 0).node.material.normalMap = some 7 ∧
    (reconcileNode sTex 16 nodeMidsole 0).node.material.aoMap = some 11 ∧
    (reconcileNode sTex 16 nodeMidsole 0).node.material.normalMap ≠ none := by
  have h1 : (reconcileNode sTex 16 nodeMidsole 0).node.material.normalMap = some 7 := rfl
  refine ⟨h1, rfl, ?_⟩
  rw [h1]
  simp

/-- C8 amended: every pass of either reconciler variant forces matte
shading (`roughness = 1`, `metalness = 0`); the color-only variant
(`src/app/index.tsx`) additionally strips all five secondary shading maps
to null, while the texture-capable variant (`src/app/page.tsx`) resets only
the base color `map` slot and leaves the five secondary maps exactly as
they were on the (cloned) material. -/
theorem matte_forced_secondary_maps_by_variant (s s' : PageState) (a : Nat)
    (n n' : MeshNode) (f f' : Nat) (h : n'.material.hasColor = true) :
    ((reconcileNode s a n f).node.material.roughness = 1 ∧
     (reconcileNode s a n f).node.material.metalness = 0 ∧
     (reconcileNode s a n f).node.material.normalMap = n.material.normalMap ∧
     (reconcileNode s a n f).node.material.roughnessMap = n.material.roughnessMap ∧
     (reconcileNode s a n f).node.material.metalnessMap = n.material.metalnessMap ∧
     (reconcileNode s a n f).node.material.bumpMap = n.material.bumpMap ∧
     (reconcileNode s a n f).node.material.aoMap = n.material.aoMap) ∧
    ((reconcileNodeColorOnly s' n' f').node.material.map = none ∧
     (reconcileNodeColorOnly s' n' f').node.material.normalMap = none ∧
     (reconcileNodeColorOnly s' n' f').node.material.roughnessMap = none ∧
     (reconcileNodeColorOnly s' n' f').node.material.metalnessMap = none ∧
     (reconcileNodeColorOnly s' n' f').node.material.bumpMap = none ∧
     (reconcileNodeColorOnly s' n' f').node.material.aoMap = none ∧
     (reconcileNodeColorOnly s' n' f').node.material.roughness = 1 ∧
     (reconcileNodeColorOnly s' n' f').node.material.metalness = 0) := by
  constructor
  · obtain ⟨ht1, ht2, ht3, ht4, ht5⟩ :=
      textureStep_secondary s a n.name (cloneStep n f).1 (cloneStep n f).2
    obtain ⟨hm1, hm2, hm3, hm4, hm5⟩ := mappingStep_secondary s n.name
      (textureStep s a n.name (cloneStep n f).1 (cloneStep n f).2).1
    obtain ⟨hc1, hc2, hc3, hc4, hc5⟩ := cloneStep_secondary n f
    rw [reconcileNode_material]
    exact ⟨rfl, rfl,
      by rw [show (matteStep (mappingStep s n.name _)).normalMap =
               (mappingStep s n.name _).normalMap from rfl, hm1, ht1, hc1],
      by rw [show (matteStep (mappingStep s n.name _)).roughnessMap =
               (mappingStep s n.name _).roughnessMap from rfl, hm2, ht2, hc2],
      by rw [show (matteStep (mappingStep s n.name _)).metalnessMap =
               (mappingStep s n.name _).metalnessMap from rfl, hm3, ht3, hc3],
      by rw [show (matteStep (mappingStep s n.name _)).bumpMap =
               (mappingStep s n.name _).bumpMap from rfl, hm4, ht4, hc4],
      by rw [show (matteStep (mappingStep s n.name _)).aoMap =
               (mappingStep s n.name _).aoMap from rfl, hm5, ht5, hc5]⟩
  · have hh : (cloneStep n' f').1.hasColor = true := by
      rw [cloneStep_hasColor]; exact h
    simp [reconcileNodeColorOnly, hh]

/-- Witness for the C8 amended claim: the texture-capable variant on the
example node keeps `roughness = 1` / `metalness = 0` while the baked maps
survive; the color-only variant on the same node strips them all. -/
theorem matte_forced_secondary_maps_by_variant_witness :
    ((reconcileNode sTex 16 nodeMidsole 0).node.material.roughness = 1 ∧
     (reconcileNode sTex 16 nodeMidsole 0).node.material.metalness = 0 ∧
     (reconcileNode sTex 16 nodeMidsole 0).node.material.normalMap = nodeMidsole.material.normalMap ∧
     (reconcileNode sTex 16 nodeMidsole 0).node.material.roughnessMap = nodeMidsole.material.roughnessMap ∧
     (reconcileNode sTex 16 nodeMidsole 0).node.material.metalnessMap = nodeMidsole.material.metalnessMap ∧
     (reconcileNode sTex 16 nodeMidsole 0).node.material.bumpMap = nodeMidsole.material.bumpMap ∧
     (reconcileNode sTex 16 nodeMidsole 0).node.material.aoMap = nodeMidsole.material.aoMap) ∧
    ((reconcileNodeColorOnly initialPageState nodeMidsole 0).node.material.map = none ∧
     (reconcileNodeColorOnly initialPageState nodeMidsole 0).node.material.normalMap = none ∧
     (reconcileNodeColorOnly initialPageState nodeMidsole 0).node.material.roughnessMap = none ∧
     (reconcileNodeColorOnly initialPageState nodeMidsole 0).node.material.metalnessMap = none ∧
     (reconcileNodeColorOnly initialPageState nodeMidsole 0).node.material.bumpMap = none ∧
     (reconcileNodeColorOnly initialPageState nodeMidsole 0).node.material.aoMap = none ∧
     (reconcileNodeColorOnly initialPageState nodeMidsole 0).node.material.roughness = 1 ∧
     (reconcileNodeColorOnly initialPageState nodeMidsole 0).node.material.metalness = 0) :=
  matte_forced_secondary_maps_by_variant sTex initialPageState 16
    nodeMidsole nodeMidsole 0 0 rfl

lemma cloneStep_snd_ge (n : MeshNode) (f : Nat) : f ≤ (cloneStep n f).2 := by
  unfold cloneStep
  split
  · exact Nat.le_succ f
  · exact Nat.le_refl f

lemma textureStep_map_of_some (s : PageState) (a : Nat) (name : String)
    (m : Material) (f : Nat) (u : String) (h : s.textures name = some u) :
    ∃ t, (textureStep s a name m f).1.map = some t ∧
      t.handle = f ∧ t.url = u ∧ (textureStep s a name m f).2 = f + 1 := by
  simp [textureStep, h]

lemma mappingStep_map_handle_url (s : PageState) (name : String)
    (m : Material) (t : TextureObj) (h : m.map = some t) :
    ∃ t', (mappingStep s name m).map = some t' ∧
      t'.handle = t.handle ∧ t'.url = t.url := by
  unfold mappingStep
  rw [h]
  exact ⟨_, rfl, rfl, rfl⟩

lemma addOutlineStep_snd_ge (s : PageState) (name : String)
    (cur : Option Overlay) (f : Nat) : f ≤ (addOutlineStep s name cur f).2 := by
  unfold addOutlineStep
  split
  · exact Nat.le_add_right f 2
  · exact Nat.le_refl f

/-- With a texture stored for the part, the step installs a freshly
allocated texture object for it: its id lies in the step's allocation
window `[f, fresh)`. -/
lemma reconcileNode_map_handle (s : PageState) (a : Nat) (n : MeshNode)
    (f : Nat) (u : String) (h : s.textures n.name = some u) :
    ∃ t, (reconcileNode s a n f).node.material.map = some t ∧ t.url = u ∧
      f ≤ t.handle ∧ t.handle < (reconcileNode s a n f).fresh := by
  obtain ⟨t0, ht0, hh0, hu0, hsnd⟩ :=
    textureStep_map_of_some s a n.name (cloneStep n f).1 (cloneStep n f).2 u h
  obtain ⟨t1, ht1, hh1, hu1⟩ := mappingStep_map_handle_url s n.name
    (textureStep s a n.name (cloneStep n f).1 (cloneStep n f).2).1 t0 ht0
  have hmap : (reconcileNode s a n f).node.material.map = some t1 := by
    rw [reconcileNode_material]
    exact ht1
  have hfresh : (cloneStep n f).2 + 1 ≤ (reconcileNode s a n f).fresh := by
    rw [reconcileNode_fresh, ← hsnd]
    exact addOutlineStep_snd_ge s n.name (removeOutlineStep n.outline).1 _
  have hgc := cloneStep_snd_ge n f
  refine ⟨t1, hmap, by rw [hu1, hu0], ?_, ?_⟩
  · rw [hh1, hh0]; exact hgc
  · rw [hh1, hh0]; omega

lemma completeLoadTex_ne (h : Nat) (t : TextureObj) (hne : t.handle ≠ h) :
    completeLoadTex h t = t := by
  simp [completeLoadTex, hne]

/-- C7: a stale texture-load completion is never applied over a newer
texture reference.  After a pass for reference `u1` installed texture
object `t1` and a later pass (for the reassigned reference `u2`) installed
a distinct, fresher object, the completion of `t1`'s load reaches no
material: the node's map is still the newer object for `u2`, unchanged. -/
theorem stale_texture_load_not_applied (s1 s2 : PageState) (a1 a2 : Nat)
    (n : MeshNode) (f : Nat) (u1 u2 : String)
    (h1 : s1.textures n.name = some u1) (h2 : s2.textures n.name = some u2) :
    ∀ t1, (reconcileNode s1 a1 n f).node.material.map = some t1 →
      ∃ t2,
        (reconcileNode s2 a2 (reconcileNode s1 a1 n f).node
            (reconcileNode s1 a1 n f).fresh).node.material.map = some t2 ∧
        t2.url = u2 ∧ t2.handle ≠ t1.handle ∧
        (completeLoadNode t1.handle
            (reconcileNode s2 a2 (reconcileNode s1 a1 n f).node
              (reconcileNode s1 a1 n f).fresh).node).material.map = some t2 := by
  intro t1 ht1
  obtain ⟨t1', hmap1, _, hge1, hlt1⟩ := reconcileNode_map_handle s1 a1 n f u1 h1
  have het : t1' = t1 := by
    rw [ht1] at hmap1
    exact (Option.some.inj hmap1).symm
  subst het
  obtain ⟨t2, hmap2, hurl2, hge2, _⟩ :=
    reconcileNode_map_handle s2 a2 (reconcileNode s1 a1 n f).node
      (reconcileNode s1 a1 n f).fresh u2 h2
  have hne : t2.handle ≠ t1'.handle := by omega
  refine ⟨t2, hmap2, hurl2, hne, ?_⟩
  unfold completeLoadNode
  rw [hmap2]
  simp only [completeLoadTex_ne t1'.handle t2 hne]

/-- Witness for C7: reassigning `midsole`'s texture from `a.png` to `b.png`
between two passes; completing the first (stale) load leaves the map at
the `b.png` texture object. -/
theorem stale_texture_load_not_applied_witness :
    ∃ t2,
      (reconcileNode
          { initialPageState with
              textures := update initialPageState.textures "midsole" (some "https://tex.example/b.png") }
          16
          (reconcileNode
            { initialPageState with
                textures := update initialPageState.textures "midsole" (some "https://tex.example/a.png") }
            16 nodeMidsole 0).node
          (reconcileNode
            { initialPageState with
                textures := update initialPageState.textures "midsole" (some "https://tex.example/a.png") }
            16 nodeMidsole 0).fresh).node.material.map = some t2 ∧
      t2.url = "https://tex.example/b.png" ∧
      t2.handle ≠
        ({ handle := 1, url := "https://tex.example/a.png", flipY := false,
           wrapRepeatS := true, wrapRepeatT := true, anisotropy := 16,
           repeatU := 2, repeatV := 2, offsetU := 0, offsetV := 0,
           loaded := false } : TextureObj).handle ∧
      (completeLoadNode
          ({ handle := 1, url := "https://tex.example/a.png", flipY := false,
             wrapRepeatS := true, wrapRepeatT := true, anisotropy := 16,
             repeatU := 2, repeatV := 2, offsetU := 0, offsetV := 0,
             loaded := false } : TextureObj).handle
          (reconcileNode
            { initialPageState with
                textures := update initialPageState.textures "midsole" (some "https://tex.example/b.png") }
            16
            (reconcileNode
              { initialPageState with
                  textures := update initialPageState.textures "midsole" (some "https://tex.example/a.png") }
              16 nodeMidsole 0).node
            (reconcileNode
              { initialPageState with
                  textures := update initialPageState.textures "midsole" (some "https://tex.example/a.png") }
              16 nodeMidsole 0).fresh).node).material.map = some t2 :=
  stale_texture_load_not_applied
    { initialPageState with
        textures := update initialPageState.textures "midsole" (some "https://tex.example/a.png") }
    { initialPageState with
        textures := update initialPageState.textures "midsole" (some "https://tex.example/b.png") }
    16 16 nodeMidsole 0 "https://tex.example/a.png" "https://tex.example/b.png"
    rfl rfl
    { handle := 1, url := "https://tex.example/a.png", flipY := false,
      wrapRepeatS := true, wrapRepeatT := true, anisotropy := 16,
      repeatU := 2, repeatV := 2, offsetU := 0, offsetV := 0, loaded := false }
    (by with_unfolding_all rfl)

/-- C9: `getCroppedImg` produces a PNG blob sized exactly
`cropRegion.width × cropRegion.height` whenever the source decodes and
serialization yields data; it rejects with `imageLoadError` when the source
fails to decode and with the `Canvas is empty` encoding error when
serialization produces no blob; and in every failure case `applyCrop`
leaves the customization state unchanged. -/
theorem getCroppedImg_size_and_failures (env : BrowserEnv) (src : String)
    (cp : PixelCrop) (s : PageState) :
    ((env.decodeImage src).isSome = true → env.canvasToBlobOk = true →
      getCroppedImg env src cp =
        .ok { width := cp.width, height := cp.height, mime := "image/png" }) ∧
    (env.decodeImage src = none →
      getCroppedImg env src cp = .error .imageLoadError) ∧
    ((env.decodeImage src).isSome = true → env.canvasToBlobOk = false →
      getCroppedImg env src cp = .error (.encodingError "Canvas is empty")) ∧
    (∀ e, getCroppedImg env src cp = .error e →
      applyCrop env (some src) (some cp) s = s) := by
  refine ⟨?_, ?_, ?_, ?_⟩
  · intro hdec henc
    obtain ⟨img, himg⟩ := Option.isSome_iff_exists.mp hdec
    simp [getCroppedImg, himg, henc]
  · intro hdec
    simp [getCroppedImg, hdec]
  · intro hdec henc
    obtain ⟨img, himg⟩ := Option.isSome_iff_exists.mp hdec
    simp [getCroppedImg, himg, henc]
  · intro e herr
    unfold applyCrop
    cases hsel : s.selectedPart <;> simp [herr]

/-- Browser environment in which a 400×300 source decodes and the canvas
serializes. -/
def envOk : BrowserEnv :=
  { decodeImage := fun _ => some { width := 400, height := 300 },
    canvasToBlobOk := true }

/-- Browser environment in which the crop source fails to decode. -/
def envNoDecode : BrowserEnv :=
  { decodeImage := fun _ => none, canvasToBlobOk := true }

/-- Witness for C9: cropping the 400×300 source with region
`{x:50, y:50, width:100, height:100}` yields a 100×100 PNG blob, and with
a failing decode the crop rejects and `applyCrop` leaves the state (with
`midsole` selected) unchanged. -/
theorem getCroppedImg_size_and_failures_witness :
    getCroppedImg envOk "https://img.example/src.png"
        { x := 50, y := 50, width := 100, height := 100 } =
      .ok { width := 100, height := 100, mime := "image/png" } ∧
    getCroppedImg envNoDecode "https://img.example/src.png"
        { x := 50, y := 50, width := 100, height := 100 } =
      .error .imageLoadError ∧
    applyCrop envNoDecode (some "https://img.example/src.png")
        (some { x := 50, y := 50, width := 100, height := 100 })
        { initialPageState with selectedPart := some "midsole" } =
      { initialPageState with selectedPart := some "midsole" } := by
  obtain ⟨hok, _, _, _⟩ :=
    getCroppedImg_size_and_failures envOk "https://img.example/src.png"
      { x := 50, y := 50, width := 100, height := 100 } initialPageState
  obtain ⟨_, herr, _, hunch⟩ :=
    getCroppedImg_size_and_failures envNoDecode "https://img.example/src.png"
      { x := 50, y := 50, width := 100, height := 100 }
      { initialPageState with selectedPart := some "midsole" }
  exact ⟨hok rfl rfl, herr rfl, hunch CropError.imageLoadError (herr rfl)⟩

end ThreeColorpicker
